import Mathlib

/-!
Shallow embedding of `aithing-mac` (`src/aithing-app/src-tauri/src/lib.rs`):
the settings store, window-state store, global-shortcut dispatch and the
Tauri command surface, with the OS window system and the persisted store
modelled as explicit state.  All definitions are translated from the Rust
source; theorems check the natural-language specification against them.
-/

namespace AIThing

/-- Structure `AppSettings` from lib.rs: three user-facing boolean toggles. -/
structure AppSettings where
  show_in_screenshot : Bool
  open_at_login : Bool
  shortcuts_enabled : Bool
deriving DecidableEq

/-- Translation of `impl Default for AppSettings` in lib.rs. -/
def AppSettings.default : AppSettings :=
  { show_in_screenshot := false
    open_at_login := false
    shortcuts_enabled := true }

/-- Model of an `f64` value as stored by the program.  The program performs
no floating-point arithmetic on these fields: they are stored and returned
verbatim, so a finite value is modelled as a rational and the non-finite
values are separate constructors.  Structural equality of this type models
"the exact same f64 value". -/
inductive F64 where
  | finite (q : ℚ)
  | posInf
  | negInf
  | nan
deriving DecidableEq

/-- Positivity of a modelled `f64` (`width > 0` in the invariant of the spec). -/
def F64.isPos : F64 → Bool
  | .finite q => decide (0 < q)
  | .posInf => true
  | .negInf => false
  | .nan => false

/-- Structure `WindowState` from lib.rs. -/
structure WindowState where
  is_visible : Bool
  is_expanded : Bool
  width : F64
  height : F64
  x : F64
  y : F64
deriving DecidableEq

/-- The initial value placed in the `WINDOW_STATE` global in lib.rs. -/
def WINDOW_STATE_init : WindowState :=
  { is_visible := true
    is_expanded := false
    width := .finite 660
    height := .finite 600
    x := .finite 0
    y := .finite 0 }

/-- Modifier bitflags of `tauri_plugin_global_shortcut::Modifiers`,
restricted to the flags the program distinguishes. -/
structure Modifiers where
  alt : Bool
  control : Bool
  shift : Bool
  superKey : Bool
deriving DecidableEq

/-- Key codes (`tauri_plugin_global_shortcut::Code`); a representative
subset containing `Space` and several other keys. -/
inductive Code where
  | Space
  | KeyA
  | KeyB
  | Enter
  | Escape
  | Tab
deriving DecidableEq

/-- Translation of `Shortcut::new(mods, code)`.  Two shortcuts have equal `id()` exactly
when they are structurally equal, so `id` comparison in the handler is
modelled as equality of this structure. -/
structure Shortcut where
  mods : Option Modifiers
  key : Code
deriving DecidableEq

/-- The shortcut `Shortcut::new(Some(Modifiers::ALT | Modifiers::CONTROL), Code::Space)`. -/
def ctrlAltSpace : Shortcut :=
  { mods := some { alt := true, control := true, shift := false, superKey := false }
    key := .Space }

/-- The shortcut `Shortcut::new(Some(Modifiers::CONTROL), Code::Space)`. -/
def ctrlSpace : Shortcut :=
  { mods := some { alt := false, control := true, shift := false, superKey := false }
    key := .Space }

/-- The `shortcuts` array built in `set_shortcuts_enabled` and in the setup closure of `run`. -/
def shortcuts : List Shortcut := [ctrlAltSpace, ctrlSpace]

/-- Type `ShortcutState` of the global-shortcut plugin: press edge or release
edge of a combination. -/
inductive ShortcutState where
  | Pressed
  | Released
deriving DecidableEq

/-- The global-shortcut handler closure passed to
`tauri_plugin_global_shortcut::Builder::new().with_handler(..)` in `run`:
on a `Pressed` event whose shortcut id matches one of the two bound
combinations it emits the `"shortcut-triggered"` event carrying the action
name; otherwise it emits nothing.  The result models the
`(event name, payload)` pair handed to `app.emit`, or `none` when the
closure returns without emitting. -/
def shortcutHandler (shortcut : Shortcut) (state : ShortcutState) :
    Option (String × String) :=
  if state = ShortcutState.Pressed then
    if shortcut = ctrlAltSpace then
      some ("shortcut-triggered", "toggle-visibility")
    else if shortcut = ctrlSpace then
      some ("shortcut-triggered", "toggle-visibility")
    else
      none
  else
    none

/-- A value found under the `"settings"` key of `aithing-store.json`:
either JSON that decodes as `AppSettings`, or malformed content on which
`serde_json::from_value` fails. -/
inductive StoredVal where
  | valid (s : AppSettings)
  | malformed
deriving DecidableEq

/-- The OS-side window object behind the `"main"` webview window handle. -/
structure OsWindow where
  visible : Bool
  contentProtected : Bool
deriving DecidableEq

/-- The window system and shortcut registry as the program observes them:
the optional main window (`app.get_webview_window("main")`), flags that
make the individual OS calls fail (modelling OS refusal), the message the
OS attaches to a failure, and the set of currently registered global
shortcuts. -/
structure Os where
  mainWindow : Option OsWindow
  visQueryFails : Bool
  hideFails : Bool
  showFails : Bool
  protectFails : Bool
  registerFails : Bool
  errMsg : String
  registered : List Shortcut
deriving DecidableEq

/-- The whole mutable state the program touches: the two in-memory global
stores (`WINDOW_STATE`, `APP_SETTINGS`), the OS, whether
`app.store("aithing-store.json")` succeeds, and the content of the store under
the `"settings"` key. -/
structure AppState where
  windowState : WindowState
  appSettings : AppSettings
  os : Os
  storeAvailable : Bool
  persisted : Option StoredVal
deriving DecidableEq

/-- Translation of `save_settings_to_store`: when the store is obtainable, serialize the
current settings (always succeeds for three booleans) and put them under
`"settings"`; the result of `store.save()` is discarded.  When obtaining
the store fails, nothing happens. -/
def save_settings_to_store (st : AppState) : AppState :=
  if st.storeAvailable then
    { st with persisted := some (.valid st.appSettings) }
  else
    st

/-- Translation of `load_settings_from_store`: when the store is obtainable, has a
`"settings"` entry and that entry decodes as `AppSettings`, overwrite the
in-memory settings with it; in every other case leave the state untouched.
The function is total: no error is raised to the caller. -/
def load_settings_from_store (st : AppState) : AppState :=
  if st.storeAvailable then
    match st.persisted with
    | some (.valid s) => { st with appSettings := s }
    | _ => st
  else
    st

/-- Tauri command `get_window_state`: clone of the `WINDOW_STATE` global. -/
def get_window_state (st : AppState) : WindowState :=
  st.windowState

/-- Tauri command `set_window_state`: overwrite the `WINDOW_STATE` global
with the argument, verbatim, no validation; never fails. -/
def set_window_state (s : WindowState) (st : AppState) : AppState :=
  { st with windowState := s }

/-- Tauri command `get_settings`: clone of the `APP_SETTINGS` global. -/
def get_settings (st : AppState) : AppSettings :=
  st.appSettings

/-- Tauri command `set_settings`: overwrite the `APP_SETTINGS` global,
then `save_settings_to_store`; never fails. -/
def set_settings (s : AppSettings) (st : AppState) : AppState :=
  save_settings_to_store { st with appSettings := s }

/-- Tauri command `set_screenshot_protection`: look up the main window
(error if missing), call `set_content_protected(enabled)` on it (error if
the OS refuses), otherwise update the protection flag of the window. -/
def set_screenshot_protection (enabled : Bool) (st : AppState) :
    Except String Unit × AppState :=
  match st.os.mainWindow with
  | none => (.error "Failed to get main window", st)
  | some w =>
    if st.os.protectFails then
      (.error ("Failed to update content protection: " ++ st.os.errMsg), st)
    else
      (.ok (),
        { st with os :=
          { st.os with mainWindow := some { w with contentProtected := enabled } } })

/-- Tauri command `toggle_visibility`: look up the main window (error if
missing), query `is_visible` (error if the query fails), then `hide` when
visible / `show` when hidden (error if the OS refuses), and return the
negation of the visibility that was read. -/
def toggle_visibility (st : AppState) : Except String Bool × AppState :=
  match st.os.mainWindow with
  | none => (.error "Failed to get main window", st)
  | some w =>
    if st.os.visQueryFails then
      (.error ("Failed to check visibility: " ++ st.os.errMsg), st)
    else if w.visible then
      if st.os.hideFails then
        (.error ("Failed to hide window: " ++ st.os.errMsg), st)
      else
        (.ok false,
          { st with os :=
            { st.os with mainWindow := some { w with visible := false } } })
    else
      if st.os.showFails then
        (.error ("Failed to show window: " ++ st.os.errMsg), st)
      else
        (.ok true,
          { st with os :=
            { st.os with mainWindow := some { w with visible := true } } })

/-- Tauri command `set_shortcuts_enabled`: when enabling, call
`register_multiple` on the two-shortcut table (error if the OS refuses the
registration); when disabling, unregister each shortcut, discarding any
per-shortcut error (`let _ = ...`).  The in-memory settings and the
persisted store are never touched. -/
def set_shortcuts_enabled (enabled : Bool) (st : AppState) :
    Except String Unit × AppState :=
  if enabled then
    if st.os.registerFails then
      (.error ("Failed to register shortcuts: " ++ st.os.errMsg), st)
    else
      (.ok (),
        { st with os :=
          { st.os with registered :=
            (st.os.registered.filter (fun s => decide (s ∉ shortcuts))) ++ shortcuts } })
  else
    (.ok (),
      { st with os :=
        { st.os with registered :=
          st.os.registered.filter (fun s => decide (s ∉ shortcuts)) } })

/-- Modelled from the spec: the per-binding registration loop of
`ShortcutRegistry.enable` (spec §4.3) is implemented by the external
global-shortcut plugin and is not part of the source tree of this repository; per
the spec, every binding is attempted, a failed binding is reported, and
registration of the remaining bindings continues.  `osAccepts` says which
combinations the OS accepts; the result is the pair
(successfully registered bindings, reported failed bindings). -/
def registryEnable (osAccepts : Shortcut → Bool) :
    List Shortcut → List Shortcut × List Shortcut
  | [] => ([], [])
  | b :: rest =>
    let r := registryEnable osAccepts rest
    if osAccepts b then (b :: r.1, r.2) else (r.1, b :: r.2)

/-- A concrete startup state: default globals, main window present and
visible, every OS call succeeding, nothing persisted yet. -/
def initState : AppState :=
  { windowState := WINDOW_STATE_init
    appSettings := AppSettings.default
    os :=
      { mainWindow := some { visible := true, contentProtected := false }
        visQueryFails := false
        hideFails := false
        showFails := false
        protectFails := false
        registerFails := false
        errMsg := "os error"
        registered := [] }
    storeAvailable := true
    persisted := none }

/-- The visibility of the main window as the OS reports it, when the
window exists. -/
def windowVisible (st : AppState) : Option Bool :=
  st.os.mainWindow.map OsWindow.visible

end AIThing

namespace AIThing

/-- A startup state whose main-window handle lookup fails. -/
def noWindowState : AppState :=
  { initState with os := { initState.os with mainWindow := none } }

/-- A window state violating the positive-dimension invariant. -/
def badWindowState : WindowState :=
  { is_visible := true
    is_expanded := false
    width := .finite (-1)
    height := .finite 600
    x := .finite 0
    y := .finite 0 }

/-- Helper lemma: `registryEnable` partitions the binding table into accepted and
rejected bindings. -/
theorem registryEnable_eq_filter (acc : Shortcut → Bool) (l : List Shortcut) :
    registryEnable acc l = (l.filter acc, l.filter (fun x => !acc x)) := by
  induction l with
  | nil => rfl
  | cons a t ih =>
    unfold registryEnable
    rw [ih]
    by_cases h : acc a <;> simp [h, List.filter_cons]

end AIThing

namespace AIThing

/-- C2: for every delivered global-shortcut event, the handler emits the
"shortcut-triggered" notification with action "toggle-visibility" exactly
when the event is a press edge of one of the two bound combinations
(Control+Alt+Space or Control+Space); a release edge of a bound
combination, or a press of any other combination, emits nothing. -/
theorem shortcutHandler_characterization (s : Shortcut) (st : ShortcutState) :
    shortcutHandler s st =
      (if st = ShortcutState.Pressed ∧ (s = ctrlAltSpace ∨ s = ctrlSpace) then
        some ("shortcut-triggered", "toggle-visibility")
      else
        none) := by
  unfold shortcutHandler
  by_cases hp : st = ShortcutState.Pressed
  · by_cases h1 : s = ctrlAltSpace
    · simp [hp, h1]
    · by_cases h2 : s = ctrlSpace <;> simp [hp, h1, h2]
  · simp [hp]

/-- C3: for every AppSettings value s and every starting state (the
persistence collaborator present or not, its write succeeding or not),
set_settings s followed by get_settings returns exactly s. -/
theorem set_get_settings_roundtrip (s : AppSettings) (st : AppState) :
    get_settings (set_settings s st) = s := by
  unfold get_settings set_settings save_settings_to_store
  split <;> rfl

/-- C9: toggle_visibility never modifies the WindowStateStore cache, on
success or on failure: get_window_state returns the same value after
toggle_visibility as before. -/
theorem toggle_preserves_window_state (st : AppState) :
    get_window_state (toggle_visibility st).2 = get_window_state st := by
  unfold toggle_visibility get_window_state
  cases h : st.os.mainWindow with
  | none => rfl
  | some w => dsimp only; split_ifs <;> rfl

/-- C10: for every WindowState value s, including values with non-positive
or non-finite width/height, set_window_state s never fails (it is a total
function into AppState) and a subsequent get_window_state returns exactly
s: the command surface performs no validation or clamping whatsoever. -/
theorem set_get_window_state_exact (s : WindowState) (st : AppState) :
    get_window_state (set_window_state s st) = s := rfl

end AIThing

namespace AIThing

/-- C7 counterexample: set_window_state accepts a state whose width is -1
without rejecting or clamping it, so the stored WindowState does not
always satisfy the positive-dimension invariant. -/
theorem window_invariant_not_maintained :
    ¬ ((get_window_state (set_window_state badWindowState initState)).width.isPos = true ∧
       (get_window_state (set_window_state badWindowState initState)).height.isPos = true) := by
  decide

/-- C7 (amended): the initial default WINDOW_STATE satisfies the
positive-dimension invariant, and set_window_state preserves it exactly
when the caller passes positive dimensions; the command itself performs
no rejection or clamping, so the invariant holds only for invariant-
respecting inputs. -/
theorem window_invariant_default_and_preservation (s : WindowState) (st : AppState)
    (hw : s.width.isPos = true) (hh : s.height.isPos = true) :
    (WINDOW_STATE_init.width.isPos = true ∧ WINDOW_STATE_init.height.isPos = true) ∧
    ((get_window_state (set_window_state s st)).width.isPos = true ∧
     (get_window_state (set_window_state s st)).height.isPos = true) :=
  ⟨⟨by decide, by decide⟩, hw, hh⟩

/-- C7 witness: the amended statement at the default window state. -/
theorem window_invariant_witness :
    (WINDOW_STATE_init.width.isPos = true ∧ WINDOW_STATE_init.height.isPos = true) ∧
    ((get_window_state (set_window_state WINDOW_STATE_init initState)).width.isPos = true ∧
     (get_window_state (set_window_state WINDOW_STATE_init initState)).height.isPos = true) :=
  window_invariant_default_and_preservation WINDOW_STATE_init initState (by decide) (by decide)

/-- C4: when the store is unavailable, has no "settings" entry, or the
entry fails to decode, load_settings_from_store leaves the whole state
(in particular the in-memory settings) untouched and raises no error (it
is a total function); when additionally the in-memory settings are still
the startup defaults, a subsequent get_settings returns exactly
show_in_screenshot=false, open_at_login=false, shortcuts_enabled=true. -/
theorem load_settings_missing_or_malformed (st : AppState)
    (h : st.storeAvailable = false ∨ st.persisted = none ∨
         st.persisted = some StoredVal.malformed) :
    load_settings_from_store st = st ∧
    (st.appSettings = AppSettings.default →
      get_settings (load_settings_from_store st) =
        { show_in_screenshot := false
          open_at_login := false
          shortcuts_enabled := true }) := by
  have h1 : load_settings_from_store st = st := by
    unfold load_settings_from_store
    rcases h with h | h | h
    · simp [h]
    · simp [h]
    · simp [h]
  refine ⟨h1, fun hd => ?_⟩
  rw [h1]
  unfold get_settings
  rw [hd]
  rfl

/-- C4 witness: the theorem at the startup state, with both hypotheses
discharged. -/
theorem load_settings_defaults_witness :
    load_settings_from_store initState = initState ∧
    get_settings (load_settings_from_store initState) =
      { show_in_screenshot := false
        open_at_login := false
        shortcuts_enabled := true } :=
  ⟨(load_settings_missing_or_malformed initState (Or.inr (Or.inl rfl))).1,
   (load_settings_missing_or_malformed initState (Or.inr (Or.inl rfl))).2 rfl⟩

end AIThing

namespace AIThing

/-- C1: when the main window handle exists, the visibility query succeeds
and the OS accepts the hide/show calls, toggle_visibility returns the
negation of the observed visibility and drives the window to that state:
starting from a visible window it returns false and the window is hidden,
and calling it again returns true and the window is shown. -/
theorem toggle_visibility_twice (st : AppState) (w : OsWindow)
    (hw : st.os.mainWindow = some w) (hv : w.visible = true)
    (hq : st.os.visQueryFails = false) (hh : st.os.hideFails = false)
    (hs : st.os.showFails = false) :
    (toggle_visibility st).1 = Except.ok false ∧
    windowVisible (toggle_visibility st).2 = some false ∧
    (toggle_visibility (toggle_visibility st).2).1 = Except.ok true ∧
    windowVisible (toggle_visibility (toggle_visibility st).2).2 = some true := by
  unfold toggle_visibility windowVisible
  simp [hw, hv, hq, hh, hs]

/-- C1 witness: the theorem at the concrete startup state. -/
theorem toggle_visibility_twice_witness :
    (toggle_visibility initState).1 = Except.ok false ∧
    windowVisible (toggle_visibility initState).2 = some false ∧
    (toggle_visibility (toggle_visibility initState).2).1 = Except.ok true ∧
    windowVisible (toggle_visibility (toggle_visibility initState).2).2 = some true :=
  toggle_visibility_twice initState
    { visible := true, contentProtected := false } rfl rfl rfl rfl rfl

end AIThing

namespace AIThing

/-- C5 counterexample: from the startup state, set_shortcuts_enabled false
succeeds, yet get_settings().shortcuts_enabled is still true, not false:
the command does not record the enabled/disabled intent into AppSettings,
and nothing is written to the settings store. -/
theorem set_shortcuts_enabled_not_recorded :
    (set_shortcuts_enabled false initState).1 = Except.ok () ∧
    (get_settings (set_shortcuts_enabled false initState).2).shortcuts_enabled ≠ false ∧
    (set_shortcuts_enabled false initState).2.persisted = initState.persisted := by
  refine ⟨rfl, ?_, rfl⟩
  decide

/-- C5 (amended): set_shortcuts_enabled b only registers (b = true) or
unregisters (b = false) the two bindings with the OS; on success it leaves
the in-memory AppSettings and the persisted store completely unchanged —
recording shortcuts_enabled is not part of this command. -/
theorem set_shortcuts_enabled_effect (b : Bool) (st : AppState)
    (h : (set_shortcuts_enabled b st).1 = Except.ok ()) :
    get_settings (set_shortcuts_enabled b st).2 = get_settings st ∧
    (set_shortcuts_enabled b st).2.persisted = st.persisted ∧
    (b = true → (set_shortcuts_enabled b st).2.os.registered =
      (st.os.registered.filter (fun s => decide (s ∉ shortcuts))) ++ shortcuts) ∧
    (b = false → (set_shortcuts_enabled b st).2.os.registered =
      st.os.registered.filter (fun s => decide (s ∉ shortcuts))) := by
  cases b with
  | false =>
    unfold set_shortcuts_enabled get_settings
    refine ⟨rfl, rfl, ?_, ?_⟩
    · intro hc
      exact absurd hc (by decide)
    · intro _
      rfl
  | true =>
    by_cases hr : st.os.registerFails
    · exfalso
      unfold set_shortcuts_enabled at h
      simp [hr] at h
    · unfold set_shortcuts_enabled get_settings
      simp [hr]

/-- C5 witness: the amended statement on the startup state with
shortcuts being disabled. -/
theorem set_shortcuts_enabled_effect_witness :
    get_settings (set_shortcuts_enabled false initState).2 = get_settings initState ∧
    (set_shortcuts_enabled false initState).2.persisted = initState.persisted ∧
    (false = true → (set_shortcuts_enabled false initState).2.os.registered =
      (initState.os.registered.filter (fun s => decide (s ∉ shortcuts))) ++ shortcuts) ∧
    (false = false → (set_shortcuts_enabled false initState).2.os.registered =
      initState.os.registered.filter (fun s => decide (s ∉ shortcuts))) :=
  set_shortcuts_enabled_effect false initState rfl

end AIThing

namespace AIThing

/-- C6: when enabling shortcuts and the OS rejects one of the two bindings
of the table, registration of the remaining binding is still attempted
and, with the OS accepting it, succeeds (it appears in the registered
list), while the failed binding is reported in the failure list rather
than silently swallowed; `registryEnable` is a total function, so the call
as a whole completes. -/
theorem registryEnable_partial_failure (acc : Shortcut → Bool) (b c : Shortcut)
    (htable : shortcuts = [b, c] ∨ shortcuts = [c, b])
    (hfail : acc b = false) (hok : acc c = true) :
    c ∈ (registryEnable acc shortcuts).1 ∧
    b ∈ (registryEnable acc shortcuts).2 := by
  rw [registryEnable_eq_filter]
  rcases htable with h | h <;> rw [h] <;>
    simp [List.filter_cons, hfail, hok]

/-- C6 witness: the OS rejects Control+Alt+Space and accepts
Control+Space; Control+Space ends up registered and Control+Alt+Space is
reported as failed. -/
theorem registryEnable_partial_failure_witness :
    ctrlSpace ∈ (registryEnable (fun s => decide (s = ctrlSpace)) shortcuts).1 ∧
    ctrlAltSpace ∈ (registryEnable (fun s => decide (s = ctrlSpace)) shortcuts).2 :=
  registryEnable_partial_failure (fun s => decide (s = ctrlSpace)) ctrlAltSpace ctrlSpace
    (Or.inl rfl) (by decide) (by decide)

/-- C8: for the Presenter-backed commands, whenever the main window handle
is missing or the OS refuses the requested operation, the command returns
a non-empty descriptive reason string as an error and the whole state —
in particular the in-memory WindowState and AppSettings stores — is left
exactly as it was. -/
theorem presenter_errors_leave_state_unchanged (st : AppState) (e : Bool) :
    ((st.os.mainWindow = none ∨ st.os.visQueryFails = true ∨
      (windowVisible st = some true ∧ st.os.hideFails = true) ∨
      (windowVisible st = some false ∧ st.os.showFails = true)) →
      ∃ msg, msg.length > 0 ∧ toggle_visibility st = (Except.error msg, st)) ∧
    ((st.os.mainWindow = none ∨ st.os.protectFails = true) →
      ∃ msg, msg.length > 0 ∧ set_screenshot_protection e st = (Except.error msg, st)) := by
  constructor
  · intro h
    unfold toggle_visibility
    cases hw : st.os.mainWindow with
    | none =>
      exact ⟨"Failed to get main window", by decide, rfl⟩
    | some w =>
      by_cases hq : st.os.visQueryFails
      · refine ⟨"Failed to check visibility: " ++ st.os.errMsg, ?_, by simp [hq]⟩
        have h0 : 0 < ("Failed to check visibility: " : String).length := by decide
        rw [String.length_append]
        omega
      · rcases h with h | h | ⟨hv, h⟩ | ⟨hv, h⟩
        · rw [hw] at h
          cases h
        · exact absurd h hq
        · unfold windowVisible at hv
          rw [hw] at hv
          simp at hv
          refine ⟨"Failed to hide window: " ++ st.os.errMsg, ?_, by simp [hq, hv, h]⟩
          have h0 : 0 < ("Failed to hide window: " : String).length := by decide
          rw [String.length_append]
          omega
        · unfold windowVisible at hv
          rw [hw] at hv
          simp at hv
          refine ⟨"Failed to show window: " ++ st.os.errMsg, ?_, by simp [hq, hv, h]⟩
          have h0 : 0 < ("Failed to show window: " : String).length := by decide
          rw [String.length_append]
          omega
  · intro h
    unfold set_screenshot_protection
    cases hw : st.os.mainWindow with
    | none =>
      exact ⟨"Failed to get main window", by decide, rfl⟩
    | some w =>
      rcases h with h | h
      · rw [hw] at h
        cases h
      · refine ⟨"Failed to update content protection: " ++ st.os.errMsg, ?_, by simp [h]⟩
        have h0 : 0 < ("Failed to update content protection: " : String).length := by decide
        rw [String.length_append]
        omega

/-- C8 witness: both commands at a state whose main-window lookup fails. -/
theorem presenter_errors_witness :
    (∃ msg, msg.length > 0 ∧
      toggle_visibility noWindowState = (Except.error msg, noWindowState)) ∧
    (∃ msg, msg.length > 0 ∧
      set_screenshot_protection true noWindowState = (Except.error msg, noWindowState)) :=
  ⟨(presenter_errors_leave_state_unchanged noWindowState true).1 (Or.inl rfl),
   (presenter_errors_leave_state_unchanged noWindowState true).2 (Or.inl rfl)⟩

end AIThing
